import Mathlib

/-!
Verification development for the region-scheduling core (pd):
shallow embedding of the store/region data model, the filter framework
(`server/schedule/filter/filters.go`), the region scatterer
(`server/schedule/region_scatterer.go`) and parts of the hot-region
scheduler (`server/schedulers/hot_region.go`), together with theorems
about the claims of the specification.

Rates, durations and space ratios (float64 in the source) are modelled
as rationals; 64-bit ids and counters as naturals.
-/

/-- Lifecycle state of a store. Modelled from the spec: the `core` package is
not among the sources; §3 gives `state ∈ {Up, Offline, Tombstone}`. -/
inductive StoreState where
  | up
  | offline
  | tombstone
deriving DecidableEq, Repr

/-- One ordered key/value label of a store (`metapb.StoreLabel`). -/
structure StoreLabel where
  key : String
  value : String
deriving DecidableEq, Repr

/-- Modelled from the spec: `core.StoreInfo` is not among the sources. The
fields are the store attributes of §3 that the embedded filters and the
scatterer read: lifecycle state, labels, time since the last heartbeat,
space counters, busy/disconnected/blocked flags, the token-bucket
availability of the add-peer and the remove-peer limiter, snapshot counters
and the pending-peer count. -/
structure StoreInfo where
  id : Nat
  state : StoreState
  labels : List StoreLabel
  downTime : ℚ
  capacity : ℚ
  usedSize : ℚ
  isBusy : Bool
  isDisconnected : Bool
  isBlocked : Bool
  availAddPeer : Bool
  availRemovePeer : Bool
  sendingSnapCount : Nat
  receivingSnapCount : Nat
  applyingSnapCount : Nat
  pendingPeerCount : Nat
deriving DecidableEq, Repr

/-- Modelled from the spec: `core.StoreInfo.IsUp` (missing `core` package)
holds exactly when the lifecycle state is Up. -/
def StoreInfo.IsUp (s : StoreInfo) : Bool :=
  s.state == StoreState.up

/-- Modelled from the spec: `core.StoreInfo.IsOffline` (missing `core`
package) holds exactly when the lifecycle state is Offline. -/
def StoreInfo.IsOffline (s : StoreInfo) : Bool :=
  s.state == StoreState.offline

/-- Modelled from the spec: `core.StoreInfo.IsTombstone` (missing `core`
package) holds exactly when the lifecycle state is Tombstone. -/
def StoreInfo.IsTombstone (s : StoreInfo) : Bool :=
  s.state == StoreState.tombstone

/-- Modelled from the spec: `core.StoreInfo.IsLowSpace` (missing `core`
package); §4.3 defines low-space as used/capacity ≥ `LowSpaceRatio`. -/
def StoreInfo.IsLowSpace (s : StoreInfo) (lowSpaceRatio : ℚ) : Bool :=
  decide (s.usedSize / s.capacity ≥ lowSpaceRatio)

/-- Modelled from the spec: `core.StoreInfo.GetLabelValue` (missing `core`
package) returns the value stored under the key, or the empty string. -/
def StoreInfo.GetLabelValue (s : StoreInfo) (key : String) : String :=
  match s.labels.find? (fun l => l.key == key) with
  | some l => l.value
  | none => ""

/-- The options a filter consults (`opt.Options`, src/unnamed/part_000),
restricted to the getters the embedded code reads. `rejectLeaderProps` is
the label-property table behind `CheckLabelProperty(RejectLeader, ...)`. -/
structure Options where
  maxStoreDownTime : ℚ
  maxSnapshotCount : Nat
  maxPendingPeerCount : Nat
  lowSpaceRatio : ℚ
  locationLabels : List String
  maxReplicas : Nat
  placementRulesEnabled : Bool
  rejectLeaderProps : List StoreLabel

/-- Modelled from the spec: `CheckLabelProperty` (missing config code); §6
says a store matches the `reject-leader` property when any of the listed
label selectors matches one of its labels. -/
def checkLabelProperty (opts : Options) (labels : List StoreLabel) : Bool :=
  opts.rejectLeaderProps.any (fun sel =>
    labels.any (fun l => l.key == sel.key && l.value == sel.value))

/-- A filter of the filter framework: the pair of its `Source` and
`Target` predicates (`filter.Filter` interface in filters.go). -/
structure StoreFilter where
  Source : Options → StoreInfo → Bool
  Target : Options → StoreInfo → Bool

/-- `filter.Target` in filters.go: a store passes a filter list as target
when every filter accepts it. -/
def filtersTarget (opt : Options) (store : StoreInfo) (filters : List StoreFilter) : Bool :=
  filters.all (fun f => f.Target opt store)

/-- `filter.Source` in filters.go: a store passes a filter list as source
when every filter accepts it. -/
def filtersSource (opt : Options) (store : StoreInfo) (filters : List StoreFilter) : Bool :=
  filters.all (fun f => f.Source opt store)

/-- `excludedFilter` in filters.go: rejects the listed source ids as source
and the listed target ids as target. The Go maps are modelled as
membership functions. -/
def NewExcludedFilter (sources targets : Nat → Bool) : StoreFilter where
  Source := fun _ store => !sources store.id
  Target := fun _ store => !targets store.id

/-- `stateFilter.Source` in filters.go: accepts every store that is not
Tombstone. -/
def stateFilterSource (_opt : Options) (store : StoreInfo) : Bool :=
  !store.IsTombstone

/-- `stateFilter.Target` in filters.go: accepts exactly the Up stores. -/
def stateFilterTarget (_opt : Options) (store : StoreInfo) : Bool :=
  store.IsUp

/-- `NewStateFilter` in filters.go. -/
def NewStateFilter : StoreFilter where
  Source := stateFilterSource
  Target := stateFilterTarget

/- ---------------------------------------------------------------------
Distinct score and the distinct-score filter (claim C2).
--------------------------------------------------------------------- -/

/-- The positional base weight of the distinct score. -/
def replicaBaseScore : Nat := 100

/-- Modelled from the spec: `core.DistinctScore` is not among the sources.
§4.3: "Distinct score = Σ over location-label prefixes of a positional
weight whenever the candidate is isolated from the other stores at that
prefix". For the prefix of the first `i+1` location labels the weight is
`replicaBaseScore ^ (labels.length - i - 1)`, and the candidate is
isolated at that prefix when every other store differs from it on at
least one of those labels. -/
def DistinctScore (labels : List String) (stores : List StoreInfo) (other : StoreInfo) : Nat :=
  (List.range labels.length).foldl
    (fun score i =>
      if stores.all (fun s =>
            s.id == other.id ||
              (labels.take (i + 1)).any
                (fun l => s.GetLabelValue l != other.GetLabelValue l)) then
        score + replicaBaseScore ^ (labels.length - i - 1)
      else score)
    0

/-- The state captured by `distinctScoreFilter` in filters.go: the location
labels, the region stores with the source removed and the safe score of
the source against them. -/
structure DistinctScoreFilter where
  labels : List String
  stores : List StoreInfo
  safeScore : Nat

/-- `NewDistinctScoreFilter` in filters.go: drops the source store from the
region stores and precomputes the safe score of the source. -/
def NewDistinctScoreFilter (labels : List String) (stores : List StoreInfo)
    (source : StoreInfo) : DistinctScoreFilter :=
  let newStores := stores.filter (fun s => s.id != source.id)
  { labels := labels
    stores := newStores
    safeScore := DistinctScore labels newStores source }

/-- `distinctScoreFilter.Source` in filters.go: always true. -/
def DistinctScoreFilter.SourceOf (_f : DistinctScoreFilter) (_opt : Options)
    (_store : StoreInfo) : Bool :=
  true

/-- `distinctScoreFilter.Target` in filters.go: the candidate score against
the retained stores must reach the safe score. -/
def DistinctScoreFilter.TargetOf (f : DistinctScoreFilter) (_opt : Options)
    (store : StoreInfo) : Bool :=
  decide (DistinctScore f.labels f.stores store ≥ f.safeScore)

/-- The `StoreFilter` view of a distinct-score filter. -/
def DistinctScoreFilter.toFilter (f : DistinctScoreFilter) : StoreFilter where
  Source := f.SourceOf
  Target := f.TargetOf

/- ---------------------------------------------------------------------
Label constraints, engine filters and the special-use filter (claim C8).
--------------------------------------------------------------------- -/

/-- Constraint operators of placement label constraints (§4.2). -/
inductive LabelOp where
  | opIn
  | opNotIn
  | opHas
  | opNotHas
deriving DecidableEq, Repr

/-- A placement label constraint (`placement.LabelConstraint`). Modelled
from the spec: the `placement` package is not among the sources; §4.2
gives `{key, op ∈ {in, notIn, exists, notExists}, values}`; the two
presence operators are named `opHas`/`opNotHas` here. -/
structure LabelConstraint where
  key : String
  op : LabelOp
  values : List String
deriving DecidableEq, Repr

/-- Modelled from the spec: `LabelConstraint.MatchStore` (missing
`placement` package): `in` requires the label value under the key to be
listed, `notIn` requires it not to be listed, the presence operators
require the label to be present resp. absent. -/
def LabelConstraint.MatchStore (c : LabelConstraint) (s : StoreInfo) : Bool :=
  match c.op with
  | LabelOp.opIn => c.values.contains (s.GetLabelValue c.key)
  | LabelOp.opNotIn => !(c.values.contains (s.GetLabelValue c.key))
  | LabelOp.opHas => s.GetLabelValue c.key != ""
  | LabelOp.opNotHas => s.GetLabelValue c.key == ""

/-- `SpecialUseKey` in filters.go. -/
def SpecialUseKey : String := "specialUse"

/-- `SpecialUseHotRegion` in filters.go. -/
def SpecialUseHotRegion : String := "hotRegion"

/-- `SpecialUseReserved` in filters.go. -/
def SpecialUseReserved : String := "reserved"

/-- `EngineKey` in filters.go. -/
def EngineKey : String := "engine"

/-- `EngineTiFlash` in filters.go. -/
def EngineTiFlash : String := "tiflash"

/-- `allSpecialUses` in filters.go. -/
def allSpecialUses : List String := [SpecialUseHotRegion, SpecialUseReserved]

/-- `allSpeicalEngines` in filters.go (source spelling kept). -/
def allSpeicalEngines : List String := [EngineTiFlash]

/-- The state captured by `specialUseFilter` in filters.go. -/
structure SpecialUseFilter where
  constraint : LabelConstraint
deriving DecidableEq, Repr

/-- `NewSpecialUseFilter` in filters.go: the constraint keeps every special
use that is not explicitly allowed (`slice.NoneOf` over `allowUses`). -/
def NewSpecialUseFilter (allowUses : List String) : SpecialUseFilter :=
  let values := allSpecialUses.filter (fun v => allowUses.all (fun u => u != v))
  { constraint := { key := SpecialUseKey, op := LabelOp.opIn, values := values } }

/-- `specialUseFilter.Source` in filters.go: a low-space store always
passes; otherwise the store must not match the constraint. -/
def SpecialUseFilter.SourceOf (f : SpecialUseFilter) (opt : Options)
    (store : StoreInfo) : Bool :=
  if store.IsLowSpace opt.lowSpaceRatio then true
  else !(f.constraint.MatchStore store)

/-- `specialUseFilter.Target` in filters.go: the store must not match the
constraint. -/
def SpecialUseFilter.TargetOf (f : SpecialUseFilter) (_opt : Options)
    (store : StoreInfo) : Bool :=
  !(f.constraint.MatchStore store)

/-- The `StoreFilter` view of a special-use filter. -/
def SpecialUseFilter.toFilter (f : SpecialUseFilter) : StoreFilter where
  Source := f.SourceOf
  Target := f.TargetOf

/-- `engineFilter` in filters.go: keeps only the allowed engines on both
sides. -/
def NewEngineFilter (allowedEngines : List String) : StoreFilter :=
  let constraint : LabelConstraint :=
    { key := EngineKey, op := LabelOp.opIn, values := allowedEngines }
  { Source := fun _ store => constraint.MatchStore store
    Target := fun _ store => constraint.MatchStore store }

/-- `ordinaryEngineFilter` in filters.go: keeps only stores whose engine is
not a special engine. -/
def NewOrdinaryEngineFilter : StoreFilter :=
  let constraint : LabelConstraint :=
    { key := EngineKey, op := LabelOp.opNotIn, values := allSpeicalEngines }
  { Source := fun _ store => constraint.MatchStore store
    Target := fun _ store => constraint.MatchStore store }

/- ---------------------------------------------------------------------
The composite store-state filter (filters.go, StoreStateFilter).
--------------------------------------------------------------------- -/

/-- `filter.StoreStateFilter` in filters.go: flags of the planned
schedule. -/
structure StoreStateFilter where
  transferLeader : Bool
  moveRegion : Bool
deriving DecidableEq, Repr

/-- `StoreStateFilter.filterMoveRegion` in filters.go. -/
def StoreStateFilter.filterMoveRegion (_f : StoreStateFilter) (opt : Options)
    (isSource : Bool) (store : StoreInfo) : Bool :=
  if store.isBusy then false
  else if (isSource && !store.availRemovePeer) || (!isSource && !store.availAddPeer) then false
  else if decide (store.sendingSnapCount > opt.maxSnapshotCount) ||
      decide (store.receivingSnapCount > opt.maxSnapshotCount) ||
      decide (store.applyingSnapCount > opt.maxSnapshotCount) then false
  else true

/-- `StoreStateFilter.Source` in filters.go. -/
def StoreStateFilter.SourceOf (f : StoreStateFilter) (opt : Options)
    (store : StoreInfo) : Bool :=
  if store.IsTombstone || decide (store.downTime > opt.maxStoreDownTime) then false
  else if f.transferLeader && (store.isDisconnected || store.isBlocked) then false
  else if f.moveRegion && !(f.filterMoveRegion opt true store) then false
  else true

/-- `StoreStateFilter.Target` in filters.go. -/
def StoreStateFilter.TargetOf (f : StoreStateFilter) (opts : Options)
    (store : StoreInfo) : Bool :=
  if store.IsTombstone || store.IsOffline ||
      decide (store.downTime > opts.maxStoreDownTime) then false
  else if f.transferLeader &&
      (store.isDisconnected || store.isBlocked || store.isBusy ||
        checkLabelProperty opts store.labels) then false
  else if f.moveRegion &&
      ((decide (opts.maxPendingPeerCount > 0) &&
          decide (store.pendingPeerCount > opts.maxPendingPeerCount)) ||
        !(f.filterMoveRegion opts false store)) then false
  else true

/-- The `StoreFilter` view of a store-state filter. -/
def StoreStateFilter.toFilter (f : StoreStateFilter) : StoreFilter where
  Source := f.SourceOf
  Target := f.TargetOf

/- ---------------------------------------------------------------------
Peers, regions and the cluster view used by the scatterer.
--------------------------------------------------------------------- -/

/-- A peer of a region (`metapb.Peer`): peer id, store id, learner flag. -/
structure Peer where
  id : Nat
  storeId : Nat
  isLearner : Bool
deriving DecidableEq, Repr

/-- A region (`core.RegionInfo`) restricted to the attributes the embedded
code reads: id, peer list and the designated leader peer. -/
structure Region where
  id : Nat
  peers : List Peer
  leader : Option Peer
deriving DecidableEq, Repr

/-- `region.GetStoreIds()` as a membership function over store ids. -/
def Region.storeIds (r : Region) : Nat → Bool :=
  fun id => r.peers.any (fun p => p.storeId == id)

/-- A region fit (`placement.RegionFit`). Modelled from the spec: the
`placement` package is not among the sources; §4.2 orders fits by
(unsatisfied rule count ascending, isolation score descending). -/
structure RegionFit where
  unsatisfiedCount : Nat
  isolationScore : ℚ
deriving DecidableEq, Repr

/-- Modelled from the spec: `placement.CompareRegionFit` (missing
`placement` package) returns a positive value when the first fit is
better, a negative one when the second is better, and zero on ties,
under the order (unsatisfied count ascending, isolation descending). -/
def CompareRegionFit (a b : RegionFit) : Int :=
  if a.unsatisfiedCount < b.unsatisfiedCount then 1
  else if b.unsatisfiedCount < a.unsatisfiedCount then -1
  else if a.isolationScore > b.isolationScore then 1
  else if b.isolationScore > a.isolationScore then -1
  else 0

/-- The cluster view consumed by the scatterer (`opt.Cluster`,
src/unnamed/part_000): the options, the store list and the region
fitter. -/
structure Cluster extends Options where
  stores : List StoreInfo
  fitRegion : Region → RegionFit

/-- `cluster.GetStore(id)`: look the store up by id. -/
def Cluster.GetStore (c : Cluster) (id : Nat) : Option StoreInfo :=
  c.stores.find? (fun s => s.id == id)

/-- `cluster.GetRegionStores(region)`: the stores hosting the peers of the
region. -/
def Cluster.GetRegionStores (c : Cluster) (region : Region) : List StoreInfo :=
  region.peers.filterMap (fun p => c.GetStore p.storeId)

/-- Modelled from the spec: `core.WithReplacePeerStore` (missing `core`
package) moves the peer on the old store to the new store. Together with
`createRegionForRuleFit` in filters.go it builds the clone that the rule
fitter judges. -/
def Region.replacePeerStore (r : Region) (oldStoreID newStoreID : Nat) : Region :=
  { r with
    peers := r.peers.map (fun p =>
      if p.storeId == oldStoreID then { p with storeId := newStoreID } else p) }

/-- The state captured by `ruleFitFilter` in filters.go. -/
structure RuleFitFilter where
  fitter : Region → RegionFit
  region : Region
  oldFit : RegionFit
  oldStore : Nat

/-- `NewRuleFitFilter` in filters.go: precomputes the fit of the current
region. -/
def NewRuleFitFilter (fitter : Region → RegionFit) (region : Region)
    (oldStoreID : Nat) : RuleFitFilter :=
  { fitter := fitter, region := region, oldFit := fitter region, oldStore := oldStoreID }

/-- `ruleFitFilter.Target` in filters.go: replacing the peer on the old
store by one on the candidate must not produce a worse fit. -/
def RuleFitFilter.TargetOf (f : RuleFitFilter) (_opt : Options)
    (store : StoreInfo) : Bool :=
  let region := f.region.replacePeerStore f.oldStore store.id
  let newFit := f.fitter region
  decide (CompareRegionFit f.oldFit newFit ≤ 0)

/-- The `StoreFilter` view of a rule-fit filter (`Source` is always
true in filters.go). -/
def RuleFitFilter.toFilter (f : RuleFitFilter) : StoreFilter where
  Source := fun _ _ => true
  Target := f.TargetOf

/- ---------------------------------------------------------------------
The selected-stores tracker of the scatterer (claim C10).
--------------------------------------------------------------------- -/

/-- `selectedStores` in region_scatterer.go. The two Go maps
(group → store set, group → store → count) are modelled as total
functions with the Go zero values as defaults. -/
structure SelectedStores where
  checkExist : Bool
  stores : String → Nat → Bool
  groupDistribution : String → Nat → Nat

/-- `newSelectedStores` in region_scatterer.go. -/
def newSelectedStores (checkExist : Bool) : SelectedStores :=
  { checkExist := checkExist
    stores := fun _ _ => false
    groupDistribution := fun _ _ => 0 }

/-- `selectedStores.put` in region_scatterer.go: refuse a pair that was
already placed when `checkExist` is set; otherwise mark the pair (when
`checkExist` is set) and bump its distribution count. -/
def SelectedStores.put (s : SelectedStores) (id : Nat) (group : String) :
    Bool × SelectedStores :=
  if s.checkExist && s.stores group id then
    (false, s)
  else
    let stores' : String → Nat → Bool :=
      if s.checkExist then
        fun g i => if g = group ∧ i = id then true else s.stores g i
      else s.stores
    let dist' : String → Nat → Nat :=
      fun g i =>
        if g = group ∧ i = id then s.groupDistribution g i + 1
        else s.groupDistribution g i
    (true, { checkExist := s.checkExist, stores := stores', groupDistribution := dist' })

/-- `selectedStores.reset` in region_scatterer.go: clears the placed set
(only meaningful when `checkExist` is set). -/
def SelectedStores.reset (s : SelectedStores) : SelectedStores :=
  if !s.checkExist then s
  else { s with stores := fun _ _ => false }

/-- `selectedStores.get` in region_scatterer.go: the distribution count of
the pair, zero when absent. -/
def SelectedStores.get (s : SelectedStores) (id : Nat) (group : String) : Nat :=
  s.groupDistribution group id

/-- `selectedStores.newFilters` in region_scatterer.go: when `checkExist`
is set, exclude the stores already placed for the group as targets. -/
def SelectedStores.newFilters (s : SelectedStores) (group : String) : List StoreFilter :=
  if !s.checkExist then []
  else [NewExcludedFilter (fun _ => false) (s.stores group)]

/- ---------------------------------------------------------------------
The region scatterer (claim C1).
--------------------------------------------------------------------- -/

/-- `engineContext` in region_scatterer.go. -/
structure EngineContext where
  filters : List StoreFilter
  selectedPeer : SelectedStores
  selectedLeader : SelectedStores

/-- `newEngineContext` in region_scatterer.go: appends the plain
store-state filter and creates the two trackers. -/
def newEngineContext (filters : List StoreFilter) : EngineContext :=
  { filters := filters ++ [(StoreStateFilter.mk false false).toFilter]
    selectedPeer := newSelectedStores true
    selectedLeader := newSelectedStores false }

/-- The scatterer state (`RegionScatterer`): the ordinary-engine context
and the per-engine contexts created on demand. -/
structure ScattererState where
  ordinaryEngine : EngineContext
  specialEngines : List (String × EngineContext)

/-- `NewRegionScatterer` in region_scatterer.go. -/
def newRegionScatterer : ScattererState :=
  { ordinaryEngine := newEngineContext [NewOrdinaryEngineFilter]
    specialEngines := [] }

/-- Modelled from the spec: `opt.IsRegionReplicated` is declared but not
defined in the sources; §7 refuses a scatter for `UnreplicatedRegion`
"because replica count below target", so a region counts as fully
replicated when its replica count reaches the configured target
`MaxReplicas`. -/
def IsRegionReplicated (c : Cluster) (region : Region) : Bool :=
  decide (c.maxReplicas ≤ region.peers.length)

/-- Modelled from the spec: the scatter operator built by
`operator.CreateScatterRegionOperator` (missing `operator` package); §4.8
says the output is a single scatter operator carrying the chosen target
peers and the target leader store. The hot-scheduler claims additionally
read the region id, the status and the time Success was reached. -/
structure Operator where
  regionID : Nat
  status : Nat
  targetPeers : List (Nat × Peer)
  targetLeader : Nat
deriving DecidableEq, Repr

/-- `math.MaxUint64`. -/
def maxUint64 : Nat := 2 ^ 64 - 1

/-- Replace-or-append for the `targetPeers` Go map, keyed by store id. -/
def insertTargetPeer (tps : List (Nat × Peer)) (k : Nat) (p : Peer) :
    List (Nat × Peer) :=
  if tps.any (fun kv => kv.1 == k) then
    tps.map (fun kv => if kv.1 == k then (k, p) else kv)
  else tps ++ [(k, p)]

/-- `RegionScatterer.collectAvailableStores` in region_scatterer.go:
cluster stores passing the exclusion of the region stores, the
move-region store-state filter, the engine filters and the
already-selected exclusion, and that are not busy. -/
def collectAvailableStores (c : Cluster) (group : String) (region : Region)
    (context : EngineContext) : List StoreInfo :=
  let filters :=
    [NewExcludedFilter (fun _ => false) region.storeIds,
      (StoreStateFilter.mk false true).toFilter] ++
    context.filters ++ context.selectedPeer.newFilters group
  c.stores.filter (fun store =>
    filtersTarget c.toOptions store filters && !store.isBusy)

/-- `RegionScatterer.selectPeerToReplace` in region_scatterer.go. The
random pick of `rand.Intn` is modelled by the oracle, reduced modulo the
candidate count. -/
def selectPeerToReplace (c : Cluster) (oracle : Nat → Nat) (group : String)
    (stores : List StoreInfo) (region : Region) (oldPeer : Peer)
    (context : EngineContext) : Option Peer :=
  match c.GetStore oldPeer.storeId with
  | none => none
  | some sourceStore =>
    let regionStores := c.GetRegionStores region
    let scoreGuard : StoreFilter :=
      if c.placementRulesEnabled then
        (NewRuleFitFilter c.fitRegion region oldPeer.storeId).toFilter
      else
        (NewDistinctScoreFilter c.locationLabels regionStores sourceStore).toFilter
    let candidates := stores.filter (fun store => scoreGuard.Target c.toOptions store)
    if candidates.isEmpty then none
    else
      let scan := candidates.foldl
        (fun acc cand =>
          let count := context.selectedPeer.get cand.id group
          if count < acc.1 then (count, cand.id) else acc)
        (maxUint64, 0)
      if scan.2 < 1 then
        let idx := oracle candidates.length % candidates.length
        let target := candidates.getD idx sourceStore
        some { id := 0, storeId := target.id, isLearner := oldPeer.isLearner }
      else
        some { id := 0, storeId := scan.2, isLearner := oldPeer.isLearner }

/-- The loop body of `scatterWithSameEngine` in region_scatterer.go, as a
recursion over the peer list; the candidate store set, the engine
context (whose `selectedPeer` tracker the loop updates) and the
accumulated target peers are threaded through. -/
def scatterLoop (c : Cluster) (oracle : Nat → Nat) (group : String)
    (region : Region) :
    List Peer → List StoreInfo → EngineContext → List (Nat × Peer) →
    EngineContext × List (Nat × Peer)
  | [], _, ctx, tps => (ctx, tps)
  | peer :: rest, stores0, ctx0, tps =>
    let refreshed :=
      if stores0.isEmpty then
        let ctx1 := { ctx0 with selectedPeer := ctx0.selectedPeer.reset }
        (collectAvailableStores c group region ctx1, ctx1)
      else (stores0, ctx0)
    let stores := refreshed.1
    let ctx := refreshed.2
    let putRes := ctx.selectedPeer.put peer.storeId group
    if putRes.1 then
      scatterLoop c oracle group region rest
        (stores.filter (fun s => s.id != peer.storeId))
        { ctx with selectedPeer := putRes.2 }
        (insertTargetPeer tps peer.storeId peer)
    else
      match selectPeerToReplace c oracle group stores region peer ctx with
      | none =>
        scatterLoop c oracle group region rest stores ctx
          (insertTargetPeer tps peer.storeId peer)
      | some newPeer =>
        let putRes2 := ctx.selectedPeer.put newPeer.storeId group
        scatterLoop c oracle group region rest
          (stores.filter (fun s => s.id != newPeer.storeId))
          { ctx with selectedPeer := putRes2.2 }
          (insertTargetPeer tps newPeer.storeId newPeer)

/-- `scatterWithSameEngine` in region_scatterer.go: collect the available
stores for the context, then run the loop over the peers. -/
def scatterWithSameEngine (c : Cluster) (oracle : Nat → Nat) (group : String)
    (region : Region) (peers : List Peer) (context : EngineContext)
    (tps : List (Nat × Peer)) : EngineContext × List (Nat × Peer) :=
  scatterLoop c oracle group region peers
    (collectAvailableStores c group region context) context tps

/-- `RegionScatterer.selectAvailableLeaderStores` in region_scatterer.go:
the target-peer store with the smallest group leader count; when one was
found, its leader count is bumped. -/
def selectAvailableLeaderStores (group : String) (tps : List (Nat × Peer))
    (context : EngineContext) : Nat × EngineContext :=
  let scan := tps.foldl
    (fun acc kv =>
      let cnt := context.selectedLeader.get kv.1 group
      if acc.1 > cnt then (cnt, kv.1) else acc)
    (maxUint64, 0)
  if scan.2 ≠ 0 then
    (scan.2, { context with selectedLeader := (context.selectedLeader.put scan.2 group).2 })
  else (scan.2, context)

/-- Modelled from the spec: `operator.CreateScatterRegionOperator`
(missing `operator` package) packages the chosen target peers and target
leader into one scatter operator (§4.8). -/
def CreateScatterRegionOperator (region : Region) (tps : List (Nat × Peer))
    (leader : Nat) : Option Operator :=
  some { regionID := region.id, status := 0, targetPeers := tps, targetLeader := leader }

/-- One step of the special-engines loop in `scatterRegion`: fetch or
create the engine context, scatter the peers of that engine, store the
context back. -/
def scatterSpecialEngine (c : Cluster) (oracle : Nat → Nat) (group : String)
    (region : Region) (acc : List (String × EngineContext) × List (Nat × Peer))
    (entry : String × List Peer) :
    List (String × EngineContext) × List (Nat × Peer) :=
  let engines := acc.1
  let context :=
    match engines.lookup entry.1 with
    | some ctx => ctx
    | none => newEngineContext [NewEngineFilter [entry.1]]
  let res := scatterWithSameEngine c oracle group region entry.2 context acc.2
  let engines' :=
    if (engines.lookup entry.1).isSome then
      engines.map (fun kv => if kv.1 == entry.1 then (entry.1, res.1) else kv)
    else engines ++ [(entry.1, res.1)]
  (engines', res.2)

/-- Group the peers of the region by the engine of their store, as
`scatterRegion` does: ordinary-engine peers in order, and an association
list engine → peers for the special engines. A peer whose store is
unknown to the cluster is treated as hosted on an ordinary store (the
data-model invariant of §3 says peers refer to known stores). -/
def partitionPeersByEngine (c : Cluster) (region : Region) :
    List Peer × List (String × List Peer) :=
  region.peers.foldl
    (fun acc peer =>
      match c.GetStore peer.storeId with
      | none => (acc.1 ++ [peer], acc.2)
      | some store =>
        if NewOrdinaryEngineFilter.Target c.toOptions store then
          (acc.1 ++ [peer], acc.2)
        else
          let engine := store.GetLabelValue EngineKey
          match acc.2.lookup engine with
          | some peers =>
            (acc.1, acc.2.map (fun kv =>
              if kv.1 == engine then (engine, peers ++ [peer]) else kv))
          | none => (acc.1, acc.2 ++ [(engine, [peer])]))
    ([], [])

/-- `RegionScatterer.scatterRegion` in region_scatterer.go: scatter the
ordinary peers, choose the target leader among the accumulated target
peers, scatter the special-engine peers, and build the scatter
operator. -/
def scatterRegion (c : Cluster) (s : ScattererState) (oracle : Nat → Nat)
    (region : Region) (group : String) : Option Operator × ScattererState :=
  let parts := partitionPeersByEngine c region
  let ordRes := scatterWithSameEngine c oracle group region parts.1 s.ordinaryEngine []
  let leaderRes := selectAvailableLeaderStores group ordRes.2 ordRes.1
  let specialRes := parts.2.foldl (scatterSpecialEngine c oracle group region)
    (s.specialEngines, ordRes.2)
  let state' : ScattererState :=
    { ordinaryEngine := leaderRes.2, specialEngines := specialRes.1 }
  match CreateScatterRegionOperator region specialRes.2 leaderRes.1 with
  | none => (none, state')
  | some op => (some op, state')

/-- `RegionScatterer.Scatter` in region_scatterer.go: refuse a region that
is not fully replicated or has no leader; otherwise scatter it with no
error. The Go pair `(op, err)` is the first component of the result. -/
def Scatter (c : Cluster) (s : ScattererState) (oracle : Nat → Nat)
    (region : Region) (group : String) :
    (Option Operator × Option String) × ScattererState :=
  if !(IsRegionReplicated c region) then
    ((none, some "region is not fully replicated"), s)
  else if region.leader.isNone then
    ((none, some "region has no leader"), s)
  else
    let res := scatterRegion c s oracle region group
    ((res.1, none), res.2)

/- ---------------------------------------------------------------------
Hot-region scheduler: statuses, pending influence, thresholds.
--------------------------------------------------------------------- -/

/-- Operator status (`operator` package, modelled from the spec §3:
Status ∈ {Created, Started, Success, Timeout, Expired, Cancelled,
Replaced}). -/
inductive OpStatus where
  | created
  | started
  | success
  | timeout
  | expired
  | cancelled
  | replaced
deriving DecidableEq, Repr

/-- Modelled from the spec: `operator.IsEndStatus` (missing `operator`
package); §3 lists the end statuses as {Success, Timeout, Expired,
Cancelled, Replaced}. -/
def IsEndStatus : OpStatus → Bool
  | OpStatus.created => false
  | OpStatus.started => false
  | _ => true

/-- Modelled from the spec: the view of an operator that the hot scheduler
reads (missing `operator` package): the region id, the status and the
wall-clock time at which Success was reached (`GetReachTimeOf`). -/
structure HotOp where
  regionID : Nat
  status : OpStatus
  reachSuccessTime : ℚ
deriving DecidableEq, Repr

/-- Modelled from the spec: `Operator.CheckExpired` (missing `operator`
package); §3 makes Expired a terminal status, exclusive of the others,
so an operator is expired exactly when it ended with status Expired. -/
def HotOp.CheckExpired (op : HotOp) : Bool :=
  op.status == OpStatus.expired

/-- Modelled from the spec: `Operator.CheckTimeout` (missing `operator`
package); as for expiry, an operator is timed out exactly when it ended
with status Timeout. -/
def HotOp.CheckTimeout (op : HotOp) : Bool :=
  op.status == OpStatus.timeout

/-- The hot-scheduler configuration getters the embedded code reads
(`hotRegionSchedulerConfig`, not among the sources; the getter names are
the ones hot_region.go calls). -/
structure HotSchedulerConf where
  maxZombieDuration : ℚ
  srcToleranceRatio : ℚ
  maxPeerNumber : Nat

/-- `hotScheduler.calcPendingWeight` in hot_region.go: weight 0 for an
expired or timed-out operator, 1 for an operator that has not ended,
a linear decay over the zombie duration after Success, and 0 for every
other end status. `now` stands for the wall clock behind `time.Since`. -/
def calcPendingWeight (conf : HotSchedulerConf) (now : ℚ) (op : HotOp) : ℚ :=
  if op.CheckExpired || op.CheckTimeout then 0
  else if !(IsEndStatus op.status) then 1
  else
    match op.status with
    | OpStatus.success =>
      let zombieDur := now - op.reachSuccessTime
      let maxZombieDur := conf.maxZombieDuration
      if zombieDur ≥ maxZombieDur then 0
      else (maxZombieDur - zombieDur) / maxZombieDur
    | _ => 0

/-- The estimated influence of a hot operator on store load
(`schedulers.Influence`, not among the sources; the fields are the ones
hot_region.go builds in `buildOperators`). -/
structure Influence where
  byteRate : ℚ
  keyRate : ℚ
  count : ℚ
deriving DecidableEq, Repr

/-- A pending influence entry (`pendingInfluence`, not among the
sources): the operator with its source store, destination store and
estimated influence, as `newPendingInfluence` packs them. -/
structure PendingInfluence where
  op : HotOp
  srcStore : Nat
  dstStore : Nat
  infl : Influence
deriving DecidableEq, Repr

/-- The read/write perspective (`rwType` in hot_region.go). -/
inductive RwType where
  | write
  | read
deriving DecidableEq, Repr

/-- The operator kind of a hot schedule (`opType` in hot_region.go). -/
inductive OpType where
  | movePeer
  | transferLeader
deriving DecidableEq, Repr

/-- The pending-resource type (`resourceType` in hot_region.go). -/
inductive ResourceType where
  | writePeer
  | writeLeader
  | readLeader
deriving DecidableEq, Repr

/-- `toResourceType` in hot_region.go. -/
def toResourceType : RwType → OpType → ResourceType
  | RwType.write, OpType.movePeer => ResourceType.writePeer
  | RwType.write, OpType.transferLeader => ResourceType.writeLeader
  | RwType.read, _ => ResourceType.readLeader

/-- The state of the hot scheduler read and written by
`addPendingInfluence`: the pending-influence sets (one per resource
type, flattened into a tagged list) and the region → pending-operators
map (an association list region id → the two operator slots
[movePeer, transferLeader]). -/
structure HotSchedulerState where
  pendings : List (ResourceType × PendingInfluence)
  regionPendings : List (Nat × (Option HotOp × Option HotOp))

/-- `hotScheduler.addPendingInfluence` in hot_region.go: refuse a region
that already has a pending entry; otherwise record the influence under
its resource type and the operator in the slot of its operator type. -/
def addPendingInfluence (h : HotSchedulerState) (op : HotOp)
    (srcStore dstStore : Nat) (infl : Influence) (rwTy : RwType)
    (opTy : OpType) : Bool × HotSchedulerState :=
  let regionID := op.regionID
  match h.regionPendings.lookup regionID with
  | some _ => (false, h)
  | none =>
    let influence : PendingInfluence :=
      { op := op, srcStore := srcStore, dstStore := dstStore, infl := infl }
    let rcTy := toResourceType rwTy opTy
    let slots : Option HotOp × Option HotOp :=
      match opTy with
      | OpType.movePeer => (some op, none)
      | OpType.transferLeader => (none, some op)
    (true,
      { pendings := (rcTy, influence) :: h.pendings
        regionPendings := (regionID, slots) :: h.regionPendings })

/- ---------------------------------------------------------------------
Hot-region scheduler: thresholds (claim C6).
--------------------------------------------------------------------- -/

/-- `divisor` in hot_region.go (`float64(1000) * 2`). -/
def divisor : ℚ := 2000

/-- `hotWriteRegionMinFlowRate` in hot_region.go. -/
def hotWriteRegionMinFlowRate : Nat := 16 * 1024

/-- `hotReadRegionMinFlowRate` in hot_region.go. -/
def hotReadRegionMinFlowRate : Nat := 128 * 1024

/-- `hotWriteRegionMinKeyRate` in hot_region.go. -/
def hotWriteRegionMinKeyRate : Nat := 256

/-- `hotReadRegionMinKeyRate` in hot_region.go. -/
def hotReadRegionMinKeyRate : Nat := 512

/-- The cluster-wide flow totals the threshold computation reads
(`statistics.StoresStats`, not among the sources; the fields name the
four getters hot_region.go calls). -/
structure StoresStats where
  totalBytesWriteRate : ℚ
  totalKeysWriteRate : ℚ
  totalBytesReadRate : ℚ
  totalKeysReadRate : ℚ
deriving DecidableEq, Repr

/-- The Go conversion `uint64(x)` for the nonnegative rates: truncation
toward zero. -/
def floorToUint (q : ℚ) : Nat :=
  q.floor.toNat

/-- `getHotRegionThreshold` in hot_region.go: the pair (byte-rate
threshold, key-rate threshold) for a perspective. The read branch
derives the key-rate threshold from `TotalKeysWriteRate()`. -/
def getHotRegionThreshold (stats : StoresStats) (typ : RwType) : Nat × Nat :=
  match typ with
  | RwType.write =>
    let t0 := floorToUint (stats.totalBytesWriteRate / divisor)
    let t0 := if t0 < hotWriteRegionMinFlowRate then hotWriteRegionMinFlowRate else t0
    let t1 := floorToUint (stats.totalKeysWriteRate / divisor)
    let t1 := if t1 < hotWriteRegionMinKeyRate then hotWriteRegionMinKeyRate else t1
    (t0, t1)
  | RwType.read =>
    let t0 := floorToUint (stats.totalBytesReadRate / divisor)
    let t0 := if t0 < hotReadRegionMinFlowRate then hotReadRegionMinFlowRate else t0
    let t1 := floorToUint (stats.totalKeysWriteRate / divisor)
    let t1 := if t1 < hotReadRegionMinKeyRate then hotReadRegionMinKeyRate else t1
    (t0, t1)

/- ---------------------------------------------------------------------
Hot-region scheduler: store loads and source selection (claim C4).
--------------------------------------------------------------------- -/

/-- A store load vector (`storeLoad`, not among the sources): byte rate,
key rate, hot-peer count and, on the future load, the expected values
that `summaryStoresLoad` fills in. -/
structure StoreLoad where
  byteRate : ℚ
  keyRate : ℚ
  count : ℚ
  expByteRate : ℚ
  expKeyRate : ℚ
  expCount : ℚ
deriving DecidableEq, Repr

/-- Current and predicted load of a store (`storeLoadPred`, not among the
sources). -/
structure LoadPred where
  current : StoreLoad
  future : StoreLoad
deriving DecidableEq, Repr

/-- Modelled from the spec: the min projection of a load prediction
(missing `storeLoadPred.min`): the pointwise minimum of the current and
the future load on the three rate fields (§4.7, "min-projected"). -/
def LoadPred.minLoad (p : LoadPred) : StoreLoad :=
  { byteRate := min p.current.byteRate p.future.byteRate
    keyRate := min p.current.keyRate p.future.keyRate
    count := min p.current.count p.future.count
    expByteRate := 0
    expKeyRate := 0
    expCount := 0 }

/-- Modelled from the spec: the max projection of a load prediction
(missing `storeLoadPred.max`): the pointwise maximum on the three rate
fields (§4.7, "max-projected"). -/
def LoadPred.maxLoad (p : LoadPred) : StoreLoad :=
  { byteRate := max p.current.byteRate p.future.byteRate
    keyRate := max p.current.keyRate p.future.keyRate
    count := max p.current.count p.future.count
    expByteRate := 0
    expKeyRate := 0
    expCount := 0 }

/-- A hot-peer statistic (`statistics.HotPeerStat`, not among the
sources): the region id and the byte and key moving-average rates
read by the embedded code (§3, hot-peer statistic). -/
structure HotPeerStat where
  regionID : Nat
  byteRate : ℚ
  keyRate : ℚ
deriving DecidableEq, Repr

/-- A store load detail (`storeLoadDetail`, not among the sources): the
load prediction and the hot peers of the store. -/
structure StoreLoadDetail where
  loadPred : LoadPred
  hotPeers : List HotPeerStat
deriving DecidableEq, Repr

/-- `balanceSolver.filterSrcStores` in hot_region.go: keep a store of the
load-detail map when the cluster still knows it, it has at least one hot
peer, and both min-projected rates exceed `SrcToleranceRatio` times the
expected rates. `clusterStoreIds` stands for the stores
`cluster.GetStore` finds. -/
def filterSrcStores (clusterStoreIds : List Nat)
    (details : List (Nat × StoreLoadDetail)) (srcToleranceRatio : ℚ) :
    List (Nat × StoreLoadDetail) :=
  details.filter (fun entry =>
    clusterStoreIds.contains entry.1 &&
    !entry.2.hotPeers.isEmpty &&
    decide (entry.2.loadPred.minLoad.byteRate >
      srcToleranceRatio * entry.2.loadPred.future.expByteRate) &&
    decide (entry.2.loadPred.minLoad.keyRate >
      srcToleranceRatio * entry.2.loadPred.future.expKeyRate))

/- ---------------------------------------------------------------------
Hot-region scheduler: hot-peer selection of the solver (claim C5).
--------------------------------------------------------------------- -/

/-- Descending insertion by a rate projection (the comparison
`sort.Slice` uses in `filterHotPeers`). -/
def insertDescBy (f : HotPeerStat → ℚ) (x : HotPeerStat) :
    List HotPeerStat → List HotPeerStat
  | [] => [x]
  | y :: ys => if f x > f y then x :: y :: ys else y :: insertDescBy f x ys

/-- Descending sort by a rate projection. -/
def sortDescBy (f : HotPeerStat → ℚ) (l : List HotPeerStat) : List HotPeerStat :=
  l.foldr (insertDescBy f) []

/-- The inner loops of the union construction in
`balanceSolver.filterHotPeers`: pop entries until one outside the union
is found; the remaining list and the found entry are returned. -/
def popUntilNew (union : List Nat) :
    List HotPeerStat → List HotPeerStat × Option HotPeerStat
  | [] => ([], none)
  | p :: rest =>
    if union.contains p.regionID then popUntilNew union rest
    else (rest, some p)

theorem popUntilNew_length_le (union : List Nat) (xs : List HotPeerStat) :
    (popUntilNew union xs).1.length ≤ xs.length := by
  induction xs with
  | nil => simp [popUntilNew]
  | cons p rest ih =>
    by_cases h : union.contains p.regionID = true
    · simp only [popUntilNew, h, if_true, List.length_cons]
      omega
    · simp only [popUntilNew, h]
      simp

theorem popUntilNew_length_lt (union : List Nat) (xs : List HotPeerStat)
    (h : xs ≠ []) : (popUntilNew union xs).1.length < xs.length := by
  cases xs with
  | nil => exact absurd rfl h
  | cons p rest =>
    by_cases hc : union.contains p.regionID = true
    · simp only [popUntilNew, hc, if_true, List.length_cons]
      exact Nat.lt_succ_of_le (popUntilNew_length_le union rest)
    · simp only [popUntilNew, hc]
      simp

/-- Append a found entry (`union[peer] = struct` in Go) when the inner
loop produced one. -/
def appendFound (union : List HotPeerStat) : Option HotPeerStat → List HotPeerStat
  | some p => union ++ [p]
  | none => union

/-- The union loop of `balanceSolver.filterHotPeers`: grow the union with
the next fresh entry of the byte-sorted list then of the key-sorted list
until the union has `maxPeerNum` members. (When both lists are
exhausted the union already holds every peer, because the loop is only
entered with more peers than `maxPeerNum`; the guard below makes the
recursion total.) -/
def unionLoop (maxPeerNum : Nat) (byteSort keySort union : List HotPeerStat) :
    List HotPeerStat :=
  if maxPeerNum ≤ union.length then union
  else if hbk : byteSort.isEmpty && keySort.isEmpty then union
  else
    let stepByte := popUntilNew (union.map (fun p => p.regionID)) byteSort
    let union1 := appendFound union stepByte.2
    let stepKey := popUntilNew (union1.map (fun p => p.regionID)) keySort
    let union2 := appendFound union1 stepKey.2
    unionLoop maxPeerNum stepByte.1 stepKey.1 union2
termination_by byteSort.length + keySort.length
decreasing_by
  simp only [Bool.and_eq_true, List.isEmpty_iff] at hbk
  rcases Decidable.em (byteSort = []) with hb | hb
  · have hk : keySort ≠ [] := fun hk => hbk ⟨hb, hk⟩
    have h1 := popUntilNew_length_le (union.map (fun p => p.regionID)) byteSort
    have h2 := popUntilNew_length_lt
      ((appendFound union
          (popUntilNew (union.map (fun p => p.regionID)) byteSort).2).map
        (fun p => p.regionID)) keySort hk
    omega
  · have h1 := popUntilNew_length_lt (union.map (fun p => p.regionID)) byteSort hb
    have h2 := popUntilNew_length_le
      ((appendFound union
          (popUntilNew (union.map (fun p => p.regionID)) byteSort).2).map
        (fun p => p.regionID)) keySort
    omega

/-- `balanceSolver.filterHotPeers` in hot_region.go for one source store:
`ret` is the hot-peer list of the store; peers of regions with a pending
entry are dropped (`appendItem`); when the list is longer than
`MaxPeerNumber` the union of the tops of the byte-rate order and of the
key-rate order is taken first. -/
def filterHotPeersOfStore (ret : List HotPeerStat) (maxPeerNum : Nat)
    (pendingRegionIDs : List Nat) : List HotPeerStat :=
  if ret.length ≤ maxPeerNum then
    ret.filter (fun p => !pendingRegionIDs.contains p.regionID)
  else
    let byteSort := sortDescBy (fun p => p.byteRate) ret
    let keySort := sortDescBy (fun p => p.keyRate) ret
    let union := unionLoop maxPeerNum byteSort keySort []
    union.filter (fun p => !pendingRegionIDs.contains p.regionID)

/- ---------------------------------------------------------------------
Concrete fixtures used by witnesses and counterexamples.
--------------------------------------------------------------------- -/

/-- A default options record for concrete instances. -/
def optFix : Options :=
  { maxStoreDownTime := 5
    maxSnapshotCount := 3
    maxPendingPeerCount := 16
    lowSpaceRatio := 8 / 10
    locationLabels := []
    maxReplicas := 3
    placementRulesEnabled := false
    rejectLeaderProps := [] }

/-- An Up store whose heartbeat is older than `maxStoreDownTime` of
`optFix`. -/
def staleUpStore : StoreInfo :=
  { id := 1
    state := StoreState.up
    labels := []
    downTime := 10
    capacity := 100
    usedSize := 0
    isBusy := false
    isDisconnected := false
    isBlocked := false
    availAddPeer := true
    availRemovePeer := true
    sendingSnapCount := 0
    receivingSnapCount := 0
    applyingSnapCount := 0
    pendingPeerCount := 0 }

/-- A low-space store labelled for hot-region use. -/
def lowSpaceHotStore : StoreInfo :=
  { staleUpStore with
    id := 2
    downTime := 0
    usedSize := 95
    labels := [{ key := SpecialUseKey, value := SpecialUseHotRegion }] }

/- ---------------------------------------------------------------------
Claim C2: the distinct-score filter target predicate.
--------------------------------------------------------------------- -/

/-- C2: the Target predicate of the distinct-score filter accepts a
candidate exactly when its distinct score against the region stores
with the source removed is at least the score of the source against
those same stores. -/
theorem distinctScoreFilter_target_iff (labels : List String)
    (stores : List StoreInfo) (source cand : StoreInfo) (opt : Options) :
    (NewDistinctScoreFilter labels stores source).TargetOf opt cand = true ↔
      DistinctScore labels (stores.filter (fun s => s.id != source.id)) cand ≥
        DistinctScore labels (stores.filter (fun s => s.id != source.id)) source := by
  simp [NewDistinctScoreFilter, DistinctScoreFilter.TargetOf]

/- ---------------------------------------------------------------------
Claim C3: the state filter predicates.
--------------------------------------------------------------------- -/

/-- C3 counterexample: an Up store whose last heartbeat is older than
`MaxStoreDownTime` is still accepted by the state filter Target
predicate, so Target acceptance is not equivalent to "Up, not Offline
and heartbeat within `MaxStoreDownTime`". -/
theorem stateFilter_heartbeat_cex :
    stateFilterTarget optFix staleUpStore = true ∧
      ¬(staleUpStore.state = StoreState.up ∧
          staleUpStore.state ≠ StoreState.offline ∧
          staleUpStore.downTime ≤ optFix.maxStoreDownTime) := by
  constructor
  · rfl
  · rintro ⟨-, -, h⟩
    revert h
    decide

/-- C3 (amended): the state filter Source predicate rejects exactly the
Tombstone stores, and its Target predicate accepts exactly the Up stores
(hence never an Offline store); it performs no heartbeat-recency
check. -/
theorem stateFilter_predicates (opt : Options) (store : StoreInfo) :
    (stateFilterSource opt store = false ↔ store.state = StoreState.tombstone) ∧
    (stateFilterTarget opt store = true ↔ store.state = StoreState.up) ∧
    (stateFilterTarget opt store = true → store.state ≠ StoreState.offline) := by
  rcases store with ⟨id, st, rest⟩
  cases st <;>
    simp [stateFilterSource, stateFilterTarget, StoreInfo.IsTombstone, StoreInfo.IsUp]

/-- Witness for the amended C3 theorem at an Up store. -/
theorem stateFilter_predicates_witness :
    stateFilterTarget optFix staleUpStore = true ∧
      staleUpStore.state ≠ StoreState.offline :=
  ⟨(stateFilter_predicates optFix staleUpStore).2.1.mpr rfl,
    (stateFilter_predicates optFix staleUpStore).2.2
      ((stateFilter_predicates optFix staleUpStore).2.1.mpr rfl)⟩

/- ---------------------------------------------------------------------
Claim C8: the special-use filter.
--------------------------------------------------------------------- -/

/-- C8: the default special-use filter lets every low-space store pass as
a source (labelled or not); a store it rejects as source is necessarily
not low on space; and its Target predicate rejects exactly the stores
labelled with a special use, regardless of space. -/
theorem specialUseFilter_source_target (opt : Options) (store : StoreInfo) :
    (store.IsLowSpace opt.lowSpaceRatio = true →
      (NewSpecialUseFilter []).SourceOf opt store = true) ∧
    ((NewSpecialUseFilter []).SourceOf opt store = false →
      store.IsLowSpace opt.lowSpaceRatio = false) ∧
    ((NewSpecialUseFilter []).TargetOf opt store =
      !(allSpecialUses.contains (store.GetLabelValue SpecialUseKey))) := by
  have hc : (NewSpecialUseFilter []).constraint =
      { key := SpecialUseKey, op := LabelOp.opIn, values := allSpecialUses } := rfl
  refine ⟨?_, ?_, ?_⟩
  · intro h
    simp [SpecialUseFilter.SourceOf, h]
  · intro h
    by_cases hl : store.IsLowSpace opt.lowSpaceRatio = true
    · simp [SpecialUseFilter.SourceOf, hl] at h
    · simpa using hl
  · simp [SpecialUseFilter.TargetOf, hc, LabelConstraint.MatchStore]

/-- Witness for C8 at a low-space store labelled `hotRegion`: it passes as
source and is rejected as target. -/
theorem specialUseFilter_source_target_witness :
    (NewSpecialUseFilter []).SourceOf optFix lowSpaceHotStore = true ∧
      (NewSpecialUseFilter []).TargetOf optFix lowSpaceHotStore =
        !(allSpecialUses.contains (lowSpaceHotStore.GetLabelValue SpecialUseKey)) :=
  ⟨(specialUseFilter_source_target optFix lowSpaceHotStore).1
      (by
        rw [StoreInfo.IsLowSpace, decide_eq_true_iff]
        norm_num [lowSpaceHotStore, staleUpStore, optFix]),
    (specialUseFilter_source_target optFix lowSpaceHotStore).2.2⟩

/- ---------------------------------------------------------------------
Claim C10: the selected-stores tracker.
--------------------------------------------------------------------- -/

/-- C10: when `put(id, group)` returns true, the count of that pair grows
by exactly one and every other pair keeps its count; and with
`checkExist` set, a second `put` of the same pair before a reset returns
false and leaves the whole tracker unchanged. -/
theorem selectedStores_put_spec (s : SelectedStores) (id : Nat) (group : String) :
    ((s.put id group).1 = true →
      ((s.put id group).2.get id group = s.get id group + 1 ∧
        ∀ id2 group2, ¬(id2 = id ∧ group2 = group) →
          (s.put id group).2.get id2 group2 = s.get id2 group2)) ∧
    (s.checkExist = true →
      (((s.put id group).2.put id group).1 = false ∧
        ((s.put id group).2.put id group).2 = (s.put id group).2)) := by
  by_cases hg : (s.checkExist = true ∧ s.stores group id = true)
  · have hs : s.put id group = (false, s) := by
      simp [SelectedStores.put, hg]
    constructor
    · intro h
      rw [hs] at h
      exact absurd h (by simp)
    · intro _
      simp [hs]
  · have hput : s.put id group =
        (true,
          { checkExist := s.checkExist
            stores :=
              if s.checkExist then
                fun g i => if g = group ∧ i = id then true else s.stores g i
              else s.stores
            groupDistribution := fun g i =>
              if g = group ∧ i = id then s.groupDistribution g i + 1
              else s.groupDistribution g i }) := by
      simp only [SelectedStores.put]
      rw [if_neg]
      simpa using hg
    constructor
    · intro _
      constructor
      · simp [hput, SelectedStores.get]
      · intro id2 group2 hne
        have hcond : ¬(group2 = group ∧ id2 = id) := by
          intro hh
          exact hne ⟨hh.2, hh.1⟩
        simp [hput, SelectedStores.get, hcond]
    · intro hce
      have h2 : ((s.put id group).2).put id group = (false, (s.put id group).2) := by
        rw [hput]
        simp [SelectedStores.put, hce]
      rw [h2]
      exact ⟨rfl, rfl⟩

/-- Witness for C10 on a fresh tracker with `checkExist` set. -/
theorem selectedStores_put_spec_witness :
    (((newSelectedStores true).put 5 "g").2.get 5 "g" =
        (newSelectedStores true).get 5 "g" + 1) ∧
      ((((newSelectedStores true).put 5 "g").2.put 5 "g").1 = false) :=
  ⟨((selectedStores_put_spec (newSelectedStores true) 5 "g").1 rfl).1,
    ((selectedStores_put_spec (newSelectedStores true) 5 "g").2 rfl).1⟩

/- ---------------------------------------------------------------------
Claim C9: recording pending influence in the hot scheduler.
--------------------------------------------------------------------- -/

/-- C9: `addPendingInfluence` refuses a region that already has a pending
entry and leaves the whole scheduler state unchanged; for a region
without one it returns true and pushes exactly one new entry onto the
pending-influence set and one onto the region-pendings map. -/
theorem addPendingInfluence_spec (h : HotSchedulerState) (op : HotOp)
    (src dst : Nat) (infl : Influence) (rwTy : RwType) (opTy : OpType) :
    ((h.regionPendings.lookup op.regionID).isSome = true →
      addPendingInfluence h op src dst infl rwTy opTy = (false, h)) ∧
    (h.regionPendings.lookup op.regionID = none →
      ((addPendingInfluence h op src dst infl rwTy opTy).1 = true ∧
        (addPendingInfluence h op src dst infl rwTy opTy).2.pendings =
          (toResourceType rwTy opTy,
            { op := op, srcStore := src, dstStore := dst, infl := infl }) ::
            h.pendings ∧
        (addPendingInfluence h op src dst infl rwTy opTy).2.regionPendings =
          (op.regionID,
            match opTy with
            | OpType.movePeer => (some op, none)
            | OpType.transferLeader => (none, some op)) ::
            h.regionPendings)) := by
  cases hl : h.regionPendings.lookup op.regionID <;>
    simp [addPendingInfluence, hl]

/-- Witness for C9: on an empty state the entry is recorded, and a second
attempt for the same region is refused. -/
theorem addPendingInfluence_spec_witness :
    ((addPendingInfluence ⟨[], []⟩ ⟨7, OpStatus.created, 0⟩ 1 2
        ⟨3, 4, 1⟩ RwType.write OpType.movePeer).1 = true) ∧
      (addPendingInfluence
          (addPendingInfluence ⟨[], []⟩ ⟨7, OpStatus.created, 0⟩ 1 2
            ⟨3, 4, 1⟩ RwType.write OpType.movePeer).2
          ⟨7, OpStatus.created, 0⟩ 1 2 ⟨3, 4, 1⟩ RwType.write OpType.movePeer) =
        (false,
          (addPendingInfluence ⟨[], []⟩ ⟨7, OpStatus.created, 0⟩ 1 2
            ⟨3, 4, 1⟩ RwType.write OpType.movePeer).2) :=
  ⟨((addPendingInfluence_spec ⟨[], []⟩ ⟨7, OpStatus.created, 0⟩ 1 2
      ⟨3, 4, 1⟩ RwType.write OpType.movePeer).2 rfl).1,
    (addPendingInfluence_spec
      (addPendingInfluence ⟨[], []⟩ ⟨7, OpStatus.created, 0⟩ 1 2
        ⟨3, 4, 1⟩ RwType.write OpType.movePeer).2
      ⟨7, OpStatus.created, 0⟩ 1 2 ⟨3, 4, 1⟩ RwType.write OpType.movePeer).1 rfl⟩

/- ---------------------------------------------------------------------
Claim C7: the pending weight of an operator.
--------------------------------------------------------------------- -/

/-- C7: `calcPendingWeight` is 1 for an operator that has not ended, it
decays linearly over `MaxZombieDuration` after Success (0 once the
zombie duration is reached), and it is 0 for an expired, timed-out or
otherwise ended operator. -/
theorem calcPendingWeight_spec (conf : HotSchedulerConf) (now : ℚ) (op : HotOp) :
    (IsEndStatus op.status = false → calcPendingWeight conf now op = 1) ∧
    (op.status = OpStatus.success →
      ((now - op.reachSuccessTime ≥ conf.maxZombieDuration →
          calcPendingWeight conf now op = 0) ∧
        (now - op.reachSuccessTime < conf.maxZombieDuration →
          calcPendingWeight conf now op =
            (conf.maxZombieDuration - (now - op.reachSuccessTime)) /
              conf.maxZombieDuration))) ∧
    ((op.CheckExpired = true ∨ op.CheckTimeout = true ∨
        (IsEndStatus op.status = true ∧ op.status ≠ OpStatus.success)) →
      calcPendingWeight conf now op = 0) := by
  rcases op with ⟨rid, st, rt⟩
  cases st
  case success =>
    have hcw : calcPendingWeight conf now ⟨rid, OpStatus.success, rt⟩ =
        if conf.maxZombieDuration ≤ now - rt then 0
        else (conf.maxZombieDuration - (now - rt)) / conf.maxZombieDuration := rfl
    refine ⟨?_, fun _ => ⟨?_, ?_⟩, ?_⟩
    · intro h
      simp [IsEndStatus] at h
    · intro h
      rw [hcw, if_pos h]
    · intro h
      rw [hcw, if_neg (not_le.mpr h)]
    · rintro (h | h | h)
      · simp [HotOp.CheckExpired] at h
      · simp [HotOp.CheckTimeout] at h
      · exact absurd rfl h.2
  all_goals
    simp [calcPendingWeight, HotOp.CheckExpired, HotOp.CheckTimeout, IsEndStatus]

/-- Witness for C7: a successful operator inside the zombie window and a
cancelled operator. -/
theorem calcPendingWeight_spec_witness :
    (calcPendingWeight ⟨100, 1, 1000⟩ 30 ⟨7, OpStatus.success, 10⟩ =
        ((100 : ℚ) - ((30 : ℚ) - 10)) / 100) ∧
      calcPendingWeight ⟨100, 1, 1000⟩ 30 ⟨7, OpStatus.cancelled, 10⟩ = 0 :=
  ⟨((calcPendingWeight_spec ⟨100, 1, 1000⟩ 30 ⟨7, OpStatus.success, 10⟩).2.1
      rfl).2 (by norm_num),
    (calcPendingWeight_spec ⟨100, 1, 1000⟩ 30 ⟨7, OpStatus.cancelled, 10⟩).2.2
      (Or.inr (Or.inr ⟨rfl, by simp⟩))⟩

/- ---------------------------------------------------------------------
Claim C6: the hot-region thresholds of the read perspective.
--------------------------------------------------------------------- -/

/-- C6: for the read perspective the byte-rate threshold is derived from
the total read byte rate, while the key-rate threshold is derived from
the total WRITE key rate (each floored at its minimum); the result is
independent of `TotalKeysReadRate()`. -/
theorem getHotRegionThreshold_read_spec (stats : StoresStats) :
    ((getHotRegionThreshold stats RwType.read).1 =
        max (floorToUint (stats.totalBytesReadRate / divisor)) hotReadRegionMinFlowRate) ∧
    ((getHotRegionThreshold stats RwType.read).2 =
        max (floorToUint (stats.totalKeysWriteRate / divisor)) hotReadRegionMinKeyRate) ∧
    (∀ stats2 : StoresStats,
      stats2.totalBytesReadRate = stats.totalBytesReadRate →
      stats2.totalKeysWriteRate = stats.totalKeysWriteRate →
      getHotRegionThreshold stats2 RwType.read = getHotRegionThreshold stats RwType.read) := by
  refine ⟨?_, ?_, ?_⟩
  · simp only [getHotRegionThreshold]
    rw [Nat.max_def]
    split <;> split <;> omega
  · simp only [getHotRegionThreshold]
    rw [Nat.max_def]
    split <;> split <;> omega
  · intro stats2 h1 h2
    simp only [getHotRegionThreshold, h1, h2]

/-- Witness for C6: two total-statistics records that differ only in the
total read key rate produce the same read thresholds. -/
theorem getHotRegionThreshold_read_spec_witness :
    getHotRegionThreshold ⟨10000000, 8000000, 5000000, 999⟩ RwType.read =
      getHotRegionThreshold ⟨10000000, 8000000, 5000000, 3000000⟩ RwType.read :=
  (getHotRegionThreshold_read_spec ⟨10000000, 8000000, 5000000, 3000000⟩).2.2
    ⟨10000000, 8000000, 5000000, 999⟩ rfl rfl

/- ---------------------------------------------------------------------
Claim C4: source-store selection of the hot balance solver.
--------------------------------------------------------------------- -/

/-- A load detail whose rates pass the tolerance check but whose hot-peer
list is empty. -/
def detailNoHotPeers : StoreLoadDetail :=
  { loadPred :=
      { current := { byteRate := 10, keyRate := 10, count := 0,
                     expByteRate := 0, expKeyRate := 0, expCount := 0 }
        future := { byteRate := 10, keyRate := 10, count := 0,
                    expByteRate := 1, expKeyRate := 1, expCount := 0 } }
    hotPeers := [] }

/-- C4 counterexample: a store with load statistics whose min-projected
byte and key rates exceed the tolerated expectation is nevertheless not
kept by `filterSrcStores`, because its hot-peer list is empty. -/
theorem filterSrcStores_claim_cex :
    detailNoHotPeers.loadPred.minLoad.byteRate >
        1 * detailNoHotPeers.loadPred.future.expByteRate ∧
      detailNoHotPeers.loadPred.minLoad.keyRate >
        1 * detailNoHotPeers.loadPred.future.expKeyRate ∧
      filterSrcStores [1] [(1, detailNoHotPeers)] 1 = [] := by
  refine ⟨?_, ?_, rfl⟩ <;> norm_num [detailNoHotPeers, LoadPred.minLoad]

/-- C4 (amended): `filterSrcStores` keeps a store of the load-detail map
exactly when the cluster still knows the store, its hot-peer list is
non-empty, and both min-projected rates strictly exceed
`SrcToleranceRatio` times the expected rates. -/
theorem filterSrcStores_mem_iff (ids : List Nat)
    (details : List (Nat × StoreLoadDetail)) (ratio : ℚ) (id : Nat)
    (d : StoreLoadDetail) :
    (id, d) ∈ filterSrcStores ids details ratio ↔
      ((id, d) ∈ details ∧ ids.contains id = true ∧ d.hotPeers ≠ [] ∧
        d.loadPred.minLoad.byteRate > ratio * d.loadPred.future.expByteRate ∧
        d.loadPred.minLoad.keyRate > ratio * d.loadPred.future.expKeyRate) := by
  simp [filterSrcStores, List.mem_filter, and_assoc]

/- ---------------------------------------------------------------------
Claim C5: the hot-peer cap of the balance solver.
--------------------------------------------------------------------- -/

/-- A hot peer whose byte rate dominates. -/
def peerHighByte : HotPeerStat := { regionID := 1, byteRate := 2, keyRate := 1 }

/-- A hot peer whose key rate dominates. -/
def peerHighKey : HotPeerStat := { regionID := 2, byteRate := 1, keyRate := 2 }

/-- C5: with `MaxPeerNumber = 1` and two hot peers, one leading the
byte-rate order and the other the key-rate order, `filterHotPeers`
returns both peers: the union loop exceeds the cap by one, contradicting
the "at most MaxPeerNumber" bound that the claim (and the comment above
the source function) states. -/
theorem filterHotPeers_cap_exceeded :
    (filterHotPeersOfStore [peerHighByte, peerHighKey] 1 []).length = 2 := by
  have hbs : sortDescBy (fun p => p.byteRate) [peerHighByte, peerHighKey] =
      [peerHighByte, peerHighKey] := by
    norm_num [sortDescBy, insertDescBy, peerHighByte, peerHighKey]
  have hks : sortDescBy (fun p => p.keyRate) [peerHighByte, peerHighKey] =
      [peerHighKey, peerHighByte] := by
    norm_num [sortDescBy, insertDescBy, peerHighByte, peerHighKey]
  have hu : unionLoop 1 [peerHighByte, peerHighKey] [peerHighKey, peerHighByte] [] =
      [peerHighByte, peerHighKey] := by
    rw [unionLoop]
    norm_num [popUntilNew, appendFound, peerHighByte, peerHighKey]
    rw [unionLoop]
    norm_num
  simp [filterHotPeersOfStore, hbs, hks, hu]

/- ---------------------------------------------------------------------
Claim C1: the scatter entry point.
--------------------------------------------------------------------- -/

/-- C1: `Scatter` returns an error and no operator when the region is not
fully replicated or has no leader, and returns no error for every fully
replicated region with a leader. -/
theorem scatter_spec (c : Cluster) (s : ScattererState) (oracle : Nat → Nat)
    (region : Region) (group : String) :
    ((IsRegionReplicated c region = false ∨ region.leader = none) →
      ((Scatter c s oracle region group).1.1 = none ∧
        ((Scatter c s oracle region group).1.2).isSome = true)) ∧
    (IsRegionReplicated c region = true → region.leader ≠ none →
      (Scatter c s oracle region group).1.2 = none) := by
  constructor
  · rintro (h | h)
    · simp [Scatter, h]
    · cases hb : IsRegionReplicated c region <;> simp [Scatter, hb, h]
  · intro h1 h2
    have hn : region.leader.isNone = false := by
      cases hl : region.leader
      · exact absurd hl h2
      · rfl
    simp [Scatter, h1, hn]

/-- A healthy ordinary store for the scatter fixtures. -/
def scatterStore : StoreInfo := { staleUpStore with id := 11, downTime := 0 }

/-- A one-replica cluster for the scatter fixtures. -/
def clusterC1 : Cluster :=
  { toOptions := { optFix with maxReplicas := 1 }
    stores := [scatterStore]
    fitRegion := fun _ => { unsatisfiedCount := 0, isolationScore := 0 } }

/-- The peer of the scatter fixtures. -/
def scatterPeer : Peer := { id := 1, storeId := 11, isLearner := false }

/-- A replicated region without a leader. -/
def regionNoLeader : Region := { id := 100, peers := [scatterPeer], leader := none }

/-- A replicated region with a leader. -/
def regionWithLeader : Region :=
  { id := 101, peers := [scatterPeer], leader := some scatterPeer }

/-- Witness for C1: the leaderless region is refused with an error and no
operator; the replicated region with a leader produces no error. -/
theorem scatter_spec_witness :
    ((Scatter clusterC1 newRegionScatterer (fun _ => 0) regionNoLeader "g").1.1 = none ∧
      ((Scatter clusterC1 newRegionScatterer (fun _ => 0) regionNoLeader "g").1.2).isSome =
        true) ∧
      (Scatter clusterC1 newRegionScatterer (fun _ => 0) regionWithLeader "g").1.2 = none :=
  ⟨(scatter_spec clusterC1 newRegionScatterer (fun _ => 0) regionNoLeader "g").1
      (Or.inr rfl),
    (scatter_spec clusterC1 newRegionScatterer (fun _ => 0) regionWithLeader "g").2
      rfl (by simp [regionWithLeader])⟩
